import Mathlib

/-!
Shallow embedding of the bulk URL status checker (src/tool.py) and proofs
about its specification claims.

The HTTP layer (the requests session) is external nondeterminism: it is
modelled by a `Transport` oracle giving the result of the header-only
request, the result of the full GET request (consulted only when the code
issues the fallback), and the elapsed wall-clock time.  Python exceptions
are modelled with `Except`: a `RequestException` from the HTTP layer is the
`NetError` payload, and an exception that the code does not catch
(`ValueError` from `urlparse`, `TypeError` from comparing `None`,
`ZeroDivisionError` in the summary) is `Except.error ()`.
-/

/-- Characters that may appear in a URI scheme after the first character
    (urllib.parse.scheme_chars: ASCII letters, digits, and the three
    characters plus, minus, dot). -/
def isSchemeChar (c : Char) : Bool :=
  c.isAlpha || c.isDigit || c == '+' || c == '-' || c == '.'

/-- Splits a character list at its first colon: `some (before, after)` when a
    colon occurs, `none` otherwise.  Models `url.find(":")` in
    urllib.parse.urlsplit. -/
def schemeSplit : List Char → Option (List Char × List Char)
  | [] => none
  | c :: cs =>
    if c = ':' then some ([], cs)
    else
      match schemeSplit cs with
      | some (s, rest) => some (c :: s, rest)
      | none => none

/-- Scheme extraction of urllib.parse.urlsplit: when the text before the
    first colon is nonempty, starts with an ASCII letter and consists of
    scheme characters, it is the (lowercased) scheme and the remainder
    follows the colon; otherwise the scheme is empty and the whole input is
    the remainder. -/
def splitSchemeList (cs : List Char) : List Char × List Char :=
  match schemeSplit cs with
  | some (s, rest) =>
    if !s.isEmpty && (s.headD ' ').isAlpha && s.all isSchemeChar
    then (s.map Char.toLower, rest)
    else ([], cs)
  | none => ([], cs)

/-- Whether `urlparse(url).scheme` is nonempty. -/
def hasScheme (url : String) : Bool :=
  !(splitSchemeList url.data).1.isEmpty

/-- Whether `urllib.parse.urlparse(url)` raises.  urlsplit extracts the
    netloc (the text between a leading double slash of the scheme-stripped
    remainder and the first slash, question mark or hash) and raises
    ValueError "Invalid IPv6 URL" when the netloc contains an opening square
    bracket without a closing one or vice versa.  (Recent Python versions
    validate bracketed hosts further; the mismatched-bracket check modelled
    here raises in every Python 3 version, so this model under-approximates
    the raising inputs.) -/
def urlsplitRaises (url : String) : Bool :=
  match (splitSchemeList url.data).2 with
  | '/' :: '/' :: r =>
    let netloc := r.takeWhile (fun c => !(c == '/' || c == '?' || c == '#'))
    (netloc.contains '[' && !netloc.contains ']') ||
      (netloc.contains ']' && !netloc.contains '[')
  | _ => false

/-- normalize_url (tool.py lines 47-51): add the https scheme if missing.
    The call `urlparse(url)` is outside any try block, so a ValueError from
    urlsplit propagates to the caller (`Except.error ()`). -/
def normalize_url (url : String) : Except Unit String :=
  if urlsplitRaises url then Except.error ()
  else if hasScheme url then Except.ok url
  else Except.ok ("https://" ++ url)

/-- An HTTP response as seen by the prober: status code, reason phrase, and
    the resolved final URL after redirects. -/
structure HttpResponse where
  status_code : Nat
  reason : String
  url : String
  deriving Repr, DecidableEq, Inhabited

/-- A network-level failure raised by the HTTP layer
    (requests.exceptions.RequestException): the exception class name
    (`type(e).__name__`) and its message (`str(e)`). -/
structure NetError where
  error_type : String
  message : String
  deriving Repr, DecidableEq, Inhabited

deriving instance DecidableEq for Except

/-- The transport oracle for one probe: the outcome of the header-only HEAD
    request, the outcome of the full GET request (used only if the code
    issues the 405 fallback), and the elapsed wall-clock seconds measured at
    tool.py line 96. -/
structure Transport where
  headResult : Except NetError HttpResponse
  getResult : Except NetError HttpResponse
  elapsed : Rat
  deriving Repr, DecidableEq, Inhabited

/-- The result dictionary built by check_url.  Keys that the code leaves as
    Python None are `none`; the keys final_url, redirected and redirect_url
    are absent from the dictionary unless assigned, which is also `none`. -/
structure ProbeOutcome where
  url : String
  original_url : String
  status_code : Option Nat
  reason : Option String
  is_error : Bool
  error_type : Option String
  response_time : Rat
  final_url : Option String := none
  redirected : Option Bool := none
  redirect_url : Option String := none
  deriving Repr, DecidableEq, Inhabited

/-- Rounding a rational to the nearest integer, used to model Python round.
    (Python rounds float ties to even; no claim depends on tie behaviour,
    and the timing input is an external measurement anyway.) -/
def ratRound (q : Rat) : Int := Rat.floor (q + 1 / 2)

/-- round(x, 2). -/
def round2 (q : Rat) : Rat := ((ratRound (q * 100) : Int) : Rat) / 100

/-- round(x, 1). -/
def round1 (q : Rat) : Rat := ((ratRound (q * 10) : Int) : Rat) / 10

/-- The response check_url ends up holding (tool.py lines 77-94): the HEAD
    result, replaced by the GET result exactly when HEAD returned status
    405.  A raised RequestException from either request is the error case. -/
def probeResponse (t : Transport) : Except NetError HttpResponse :=
  match t.headResult with
  | Except.error e => Except.error e
  | Except.ok r => if r.status_code = 405 then t.getResult else Except.ok r

/-- Whether check_url issues the GET fallback (tool.py line 85): exactly
    when the HEAD request returned a response with status 405. -/
def usesGetFallback (t : Transport) : Bool :=
  match t.headResult with
  | Except.ok r => r.status_code = 405
  | Except.error _ => false

/-- str.strip() on the input line: drop leading and trailing whitespace
    characters.  (Python strips the Unicode whitespace set; the claims only
    involve the common whitespace characters covered here.) -/
def pyStrip (s : String) : String :=
  String.mk
    (((s.data.dropWhile Char.isWhitespace).reverse.dropWhile
        Char.isWhitespace).reverse)

/-- check_url (tool.py lines 53-111).  The input is stripped and normalized
    (a urlparse ValueError propagates: `Except.error ()`); then the result
    dictionary is completed either from the obtained response (status,
    reason, timing, final_url, and the redirected / redirect_url keys
    assigned only when the final URL differs from the request URL) or, when
    a RequestException was raised, with is_error, error_type and reason set
    and the other fields left at their initial values. -/
def check_url (t : Transport) (url0 : String) : Except Unit ProbeOutcome :=
  match normalize_url (pyStrip url0) with
  | Except.error e => Except.error e
  | Except.ok url =>
    match probeResponse t with
    | Except.ok response =>
      Except.ok
        { url := url
          original_url := url
          status_code := some response.status_code
          reason := some response.reason
          is_error := false
          error_type := none
          response_time := round2 t.elapsed
          final_url := some response.url
          redirected := if response.url ≠ url then some true else none
          redirect_url := if response.url ≠ url then some response.url else none }
    | Except.error e =>
      Except.ok
        { url := url
          original_url := url
          status_code := none
          reason := some e.message
          is_error := true
          error_type := some e.error_type
          response_time := 0
          final_url := none
          redirected := none
          redirect_url := none }

/-- The three buckets of the results dictionary. -/
inductive Bucket
  | working
  | broken
  | errors
  deriving Repr, DecidableEq

/-- The classification performed in the check_urls loop (tool.py lines
    142-147): errors when is_error, working when 200 <= status_code < 400,
    broken otherwise.  When is_error is false and status_code is Python
    None, the comparison `200 <= None` raises TypeError, modelled as
    `none`. -/
def classify (r : ProbeOutcome) : Option Bucket :=
  if r.is_error then some Bucket.errors
  else
    match r.status_code with
    | some s => if 200 ≤ s ∧ s < 400 then some Bucket.working else some Bucket.broken
    | none => none

/-- The results dictionary: the working, broken and errors lists, each in
    completion order. -/
structure ResultSet where
  working : List ProbeOutcome := []
  broken : List ProbeOutcome := []
  errors : List ProbeOutcome := []
  deriving Repr, DecidableEq, Inhabited

/-- All outcomes of a ResultSet in the order the reporting code iterates
    the buckets: working, then broken, then errors. -/
def allOutcomes (rs : ResultSet) : List ProbeOutcome :=
  rs.working ++ rs.broken ++ rs.errors

/-- One iteration of the as_completed loop body (tool.py lines 142-147):
    append the outcome to the bucket the classification chooses; a TypeError
    from the classification propagates. -/
def addOutcome (acc : ResultSet) (r : ProbeOutcome) : Except Unit ResultSet :=
  match classify r with
  | some Bucket.errors => Except.ok { acc with errors := acc.errors ++ [r] }
  | some Bucket.working => Except.ok { acc with working := acc.working ++ [r] }
  | some Bucket.broken => Except.ok { acc with broken := acc.broken ++ [r] }
  | none => Except.error ()

/-- The as_completed loop of check_urls (tool.py lines 135-147), processing
    the finished probes in the given completion order.  `future.result()`
    re-raises an exception the probe raised, aborting the loop
    (`Except.error ()`). -/
def check_urls_go (acc : ResultSet) : List (Transport × String) → Except Unit ResultSet
  | [] => Except.ok acc
  | j :: rest =>
    match check_url j.1 j.2 with
    | Except.error e => Except.error e
    | Except.ok r =>
      match addOutcome acc r with
      | Except.error e => Except.error e
      | Except.ok acc2 => check_urls_go acc2 rest

/-- check_urls (tool.py lines 113-150) on a given completion order of jobs
    (one transport per submitted URL; any worker-pool size and schedule only
    permutes this list). -/
def check_urls (jobs : List (Transport × String)) : Except Unit ResultSet :=
  check_urls_go {} jobs

/-- The outcomes of probing each job independently, in job order. -/
def probeAll : List (Transport × String) → Except Unit (List ProbeOutcome)
  | [] => Except.ok []
  | j :: rest =>
    match check_url j.1 j.2, probeAll rest with
    | Except.ok r, Except.ok rs => Except.ok (r :: rs)
    | Except.error e, _ => Except.error e
    | _, Except.error e => Except.error e

/-- The summary block of print_results (tool.py lines 175-180): the total
    and the three percentages, each bucket count divided by the total times
    100, rounded to one decimal.  When the total is 0 the first division
    raises ZeroDivisionError, modelled as `Except.error ()`. -/
def printSummary (results : ResultSet) : Except Unit (Nat × Rat × Rat × Rat) :=
  let total := results.working.length + results.broken.length + results.errors.length
  if total = 0 then Except.error ()
  else
    Except.ok (total,
      round1 ((results.working.length : Rat) / (total : Rat) * 100),
      round1 ((results.broken.length : Rat) / (total : Rat) * 100),
      round1 ((results.errors.length : Rat) / (total : Rat) * 100))

/-- str() of an optional integer for the CSV writer; Python None is written
    as the empty string. -/
def csvNat : Option Nat → String
  | none => ""
  | some n => toString n

/-- An optional string for the CSV writer; an absent key or Python None is
    written as the empty string. -/
def csvStr : Option String → String
  | none => ""
  | some s => s

/-- str() of a Python bool. -/
def csvBool (b : Bool) : String := if b then "True" else "False"

/-- An optional bool for the CSV writer; an absent key is the empty
    string. -/
def csvBoolOpt : Option Bool → String
  | none => ""
  | some b => csvBool b

/-- str() of the response_time number.  (The exact numeral rendering of
    Python floats is abstracted; no claim depends on it.) -/
def csvRat (q : Rat) : String := toString q

/-- The fixed CSV header (tool.py line 188). -/
def fieldnames : List String :=
  ["url", "status_code", "reason", "response_time",
   "is_error", "error_type", "redirected", "redirect_url"]

/-- One CSV row for an outcome: `result.get(field, "")` for each field name
    in order; fields that are absent or None serialize as the empty
    string. -/
def csvRow (r : ProbeOutcome) : List String :=
  [r.url, csvNat r.status_code, csvStr r.reason, csvRat r.response_time,
   csvBool r.is_error, csvStr r.error_type, csvBoolOpt r.redirected,
   csvStr r.redirect_url]

/-- The bucket lists in the order save_csv_report iterates them. -/
def bucketList (results : ResultSet) : Bucket → List ProbeOutcome
  | Bucket.working => results.working
  | Bucket.broken => results.broken
  | Bucket.errors => results.errors

/-- save_csv_report (tool.py lines 182-198): the header row, then one row
    per outcome, iterating the working, broken and errors buckets in that
    order. -/
def save_csv_report (results : ResultSet) : List (List String) :=
  fieldnames ::
    ([Bucket.working, Bucket.broken, Bucket.errors].flatMap
      (fun c => (bucketList results c).map csvRow))

/-! Concrete transports used by witnesses and counterexamples. -/

/-- A transport whose header-only request succeeds with 200 at the request
    URL itself. -/
def tOk : Transport :=
  { headResult := Except.ok { status_code := 200, reason := "OK", url := "https://example.com" }
    getResult := Except.ok { status_code := 200, reason := "OK", url := "https://example.com" }
    elapsed := 0 }

/-- A transport whose header-only request raises a connection error. -/
def tErr : Transport :=
  { headResult := Except.error { error_type := "ConnectionError", message := "connection refused" }
    getResult := Except.error { error_type := "ConnectionError", message := "connection refused" }
    elapsed := 0 }

/-- A transport whose header-only request returns 405 and whose full GET
    request returns 200. -/
def t405 : Transport :=
  { headResult := Except.ok { status_code := 405, reason := "Method Not Allowed", url := "https://example.com" }
    getResult := Except.ok { status_code := 200, reason := "OK", url := "https://example.com" }
    elapsed := 0 }

/-- A transport whose header-only request succeeds but resolves at a
    different final URL. -/
def tRedir : Transport :=
  { headResult := Except.ok { status_code := 200, reason := "OK", url := "https://other.example/" }
    getResult := Except.ok { status_code := 200, reason := "OK", url := "https://other.example/" }
    elapsed := 0 }

/-- The outcome check_url produces, defaulting when it raised. -/
def outcomeOf (t : Transport) (url : String) : ProbeOutcome :=
  (check_url t url).toOption.getD default

/-! Unfolding lemmas for check_url. -/

/-- When normalization succeeds and a response is obtained, check_url
    returns the success-shaped outcome. -/
theorem check_url_ok_success (t : Transport) (url0 v : String) (r : HttpResponse)
    (hn : normalize_url (pyStrip url0) = Except.ok v)
    (hr : probeResponse t = Except.ok r) :
    check_url t url0 = Except.ok
      { url := v
        original_url := v
        status_code := some r.status_code
        reason := some r.reason
        is_error := false
        error_type := none
        response_time := round2 t.elapsed
        final_url := some r.url
        redirected := if r.url ≠ v then some true else none
        redirect_url := if r.url ≠ v then some r.url else none } := by
  unfold check_url
  rw [hn, hr]

/-- When normalization succeeds and the HTTP layer raised, check_url returns
    the failure-shaped outcome. -/
theorem check_url_ok_failure (t : Transport) (url0 v : String) (e : NetError)
    (hn : normalize_url (pyStrip url0) = Except.ok v)
    (hr : probeResponse t = Except.error e) :
    check_url t url0 = Except.ok
      { url := v
        original_url := v
        status_code := none
        reason := some e.message
        is_error := true
        error_type := some e.error_type
        response_time := 0
        final_url := none
        redirected := none
        redirect_url := none } := by
  unfold check_url
  rw [hn, hr]

/-- Inversion: an outcome returned by check_url has one of the two shapes
    above. -/
theorem check_url_ok_inv (t : Transport) (url0 : String) (o : ProbeOutcome)
    (h : check_url t url0 = Except.ok o) :
    ∃ v, normalize_url (pyStrip url0) = Except.ok v ∧
      ((∃ r, probeResponse t = Except.ok r ∧ o =
        { url := v
          original_url := v
          status_code := some r.status_code
          reason := some r.reason
          is_error := false
          error_type := none
          response_time := round2 t.elapsed
          final_url := some r.url
          redirected := if r.url ≠ v then some true else none
          redirect_url := if r.url ≠ v then some r.url else none }) ∨
       (∃ e, probeResponse t = Except.error e ∧ o =
        { url := v
          original_url := v
          status_code := none
          reason := some e.message
          is_error := true
          error_type := some e.error_type
          response_time := 0
          final_url := none
          redirected := none
          redirect_url := none })) := by
  unfold check_url at h
  cases hn : normalize_url (pyStrip url0) with
  | error e =>
    rw [hn] at h
    exact absurd h (by simp)
  | ok v =>
    rw [hn] at h
    cases hr : probeResponse t with
    | ok r =>
      rw [hr] at h
      refine ⟨v, rfl, Or.inl ⟨r, rfl, ?_⟩⟩
      injection h with h
      exact h.symm
    | error e =>
      rw [hr] at h
      refine ⟨v, rfl, Or.inr ⟨e, rfl, ?_⟩⟩
      injection h with h
      exact h.symm

/-! Claim C1: the summary on an empty ResultSet. -/

/-- C1 (code bug): print_results line 178 divides each bucket count by the
    total with no zero guard, so computing the summary for a ResultSet whose
    working, broken and errors buckets are all empty raises
    ZeroDivisionError instead of being skipped or reporting zero
    percentages. -/
theorem C1_summary_raises_on_empty :
    printSummary { working := [], broken := [], errors := [] } =
      Except.error () := by
  rfl

/-! Claim C8: normalization. -/

/-- Appending a string to the https scheme prefix, at the character level. -/
theorem data_https_append (u : String) :
    ("https://" ++ u).data =
      'h' :: 't' :: 't' :: 'p' :: 's' :: ':' :: '/' :: '/' :: u.data := by
  cases u with
  | mk l => rfl

/-- The first colon of an https-prefixed string ends its scheme part. -/
theorem schemeSplit_https (l : List Char) :
    schemeSplit ('h' :: 't' :: 't' :: 'p' :: 's' :: ':' :: l) =
      some (['h', 't', 't', 'p', 's'], l) := by
  rfl

/-- Any string prefixed with the https scheme parses as having a scheme. -/
theorem hasScheme_https_append (u : String) :
    hasScheme ("https://" ++ u) = true := by
  unfold hasScheme splitSchemeList
  rw [data_https_append, schemeSplit_https]
  rfl

/-- C8 counterexample: normalization is not idempotent on every input:
    normalizing "[" yields "https://[", and normalizing that result raises
    ValueError inside urlparse (mismatched netloc bracket) instead of
    returning it unchanged. -/
theorem C8_normalize_not_idempotent :
    normalize_url "[" = Except.ok "https://[" ∧
      normalize_url "https://[" = Except.error () := by
  exact ⟨rfl, rfl⟩

/-- C8 (amended): whenever normalize_url returns a value, it returned the
    input unchanged exactly when the input had a scheme and prepended
    https:// exactly when it had none; it is idempotent on every input whose
    normalized form parses without raising; and normalizing example.com
    yields https://example.com. -/
theorem C8_normalize_characterization (u r : String)
    (h : normalize_url u = Except.ok r) :
    (hasScheme u = true → r = u) ∧
    (hasScheme u = false → r = "https://" ++ u) ∧
    (urlsplitRaises r = false → normalize_url r = Except.ok r) ∧
    normalize_url "example.com" = Except.ok "https://example.com" := by
  by_cases hraise : urlsplitRaises u
  · simp [normalize_url, hraise] at h
  · by_cases hs : hasScheme u
    · have hru : r = u := by
        simp [normalize_url, hraise, hs] at h
        exact h.symm
      subst hru
      refine ⟨fun _ => rfl, fun hs2 => absurd hs (by simp [hs2]), fun hr2 => ?_, rfl⟩
      simp [normalize_url, hr2, hs]
    · have hru : r = "https://" ++ u := by
        simp [normalize_url, hraise, hs] at h
        exact h.symm
      subst hru
      refine ⟨fun hs2 => absurd hs2 (by simp [hs]), fun _ => rfl, fun hr2 => ?_, rfl⟩
      simp [normalize_url, hr2, hasScheme_https_append]

/-- C8 witness: the amended characterization at input example.com. -/
theorem C8_witness :
    (hasScheme "example.com" = true → "https://example.com" = "example.com") ∧
    (hasScheme "example.com" = false →
      "https://example.com" = "https://" ++ "example.com") ∧
    (urlsplitRaises "https://example.com" = false →
      normalize_url "https://example.com" = Except.ok "https://example.com") ∧
    normalize_url "example.com" = Except.ok "https://example.com" :=
  C8_normalize_characterization "example.com" "https://example.com" (by rfl)

/-! Claim C2: the redirected and redirect_url fields. -/

/-- C2 counterexample: a probe whose final URL equals the normalized request
    URL leaves the redirected key absent from the outcome (none) — not the
    boolean false the claim asserts. -/
theorem C2_redirected_absent_not_false :
    (check_url tOk "example.com").map ProbeOutcome.redirected =
      Except.ok none ∧
    (Except.ok (none : Option Bool) : Except Unit (Option Bool)) ≠
      Except.ok (some false) := by
  exact ⟨by rfl, by decide⟩

/-- C2 (amended): for every outcome the prober returns, redirected is the
    value some true exactly when a final URL is present and differs from the
    normalized request URL; redirected is never the boolean false (the key
    is simply absent when the final URL matches or the probe failed); and
    redirect_url is present exactly when redirected is some true. -/
theorem C2_redirect_fields (t : Transport) (url : String) (o : ProbeOutcome)
    (h : check_url t url = Except.ok o) :
    (o.redirected = some true ↔ ∃ f, o.final_url = some f ∧ f ≠ o.url) ∧
    o.redirected ≠ some false ∧
    (o.redirect_url.isSome = true ↔ o.redirected = some true) := by
  rcases check_url_ok_inv t url o h with ⟨v, hn, ⟨r, hr, rfl⟩ | ⟨e, he, rfl⟩⟩
  · by_cases hne : r.url = v <;> simp [hne]
  · simp

/-- C2 witness: the amended statement at a concrete redirecting probe. -/
theorem C2_witness :
    ((outcomeOf tRedir "example.com").redirected = some true ↔
      ∃ f, (outcomeOf tRedir "example.com").final_url = some f ∧
        f ≠ (outcomeOf tRedir "example.com").url) ∧
    (outcomeOf tRedir "example.com").redirected ≠ some false ∧
    ((outcomeOf tRedir "example.com").redirect_url.isSome = true ↔
      (outcomeOf tRedir "example.com").redirected = some true) :=
  C2_redirect_fields tRedir "example.com" (outcomeOf tRedir "example.com") (by rfl)

/-! Claim C3: totality of the prober. -/

/-- C3 counterexample: on input "http://[" the prober does not return an
    outcome: normalization runs outside the try block and urlparse raises
    ValueError (mismatched netloc bracket), which escapes check_url. -/
theorem C3_prober_raises_on_bad_brackets :
    check_url tOk "http://[" = Except.error () := by
  rfl

/-- C3 (amended): for every input URL whose stripped form parses without a
    urlparse ValueError, check_url returns a completed outcome for every
    behaviour of the HTTP layer, and any network-level failure is converted
    into an outcome with is_error true, error_type the exception class name
    and reason its message. -/
theorem C3_prober_total_when_parse_ok (t : Transport) (url v : String)
    (hn : normalize_url (pyStrip url) = Except.ok v) :
    ∃ o, check_url t url = Except.ok o ∧
      ∀ e, probeResponse t = Except.error e →
        o.is_error = true ∧ o.error_type = some e.error_type ∧
          o.reason = some e.message := by
  cases hr : probeResponse t with
  | ok r =>
    refine ⟨_, check_url_ok_success t url v r hn hr, ?_⟩
    intro e he
    exact absurd he (by simp)
  | error e =>
    refine ⟨_, check_url_ok_failure t url v e hn hr, ?_⟩
    intro e2 he2
    injection he2 with hee
    subst hee
    simp

/-- C3 witness: the amended statement at a concrete failing transport. -/
theorem C3_witness :
    ∃ o, check_url tErr "example.com" = Except.ok o ∧
      ∀ e, probeResponse tErr = Except.error e →
        o.is_error = true ∧ o.error_type = some e.error_type ∧
          o.reason = some e.message :=
  C3_prober_total_when_parse_ok tErr "example.com" "https://example.com" (by rfl)

/-! Claim C4: the is_error / status_code invariant. -/

/-- C4: for every outcome the prober returns, exactly one of is_error true
    and status_code present holds: is_error is true exactly when status_code
    is absent, and false exactly when a status code is present. -/
theorem C4_error_xor_status (t : Transport) (url : String) (o : ProbeOutcome)
    (h : check_url t url = Except.ok o) :
    (o.is_error = true ↔ o.status_code = none) ∧
    (o.is_error = false ↔ ∃ s, o.status_code = some s) := by
  rcases check_url_ok_inv t url o h with ⟨v, hn, ⟨r, hr, rfl⟩ | ⟨e, he, rfl⟩⟩ <;> simp

/-- C4 witness: the invariant at a concrete successful probe. -/
theorem C4_witness :
    ((outcomeOf tOk "example.com").is_error = true ↔
      (outcomeOf tOk "example.com").status_code = none) ∧
    ((outcomeOf tOk "example.com").is_error = false ↔
      ∃ s, (outcomeOf tOk "example.com").status_code = some s) :=
  C4_error_xor_status tOk "example.com" (outcomeOf tOk "example.com") (by rfl)

/-! Claim C5: the classifier. -/

/-- C5: the classifier assigns every outcome the prober returns to exactly
    one bucket: errors exactly when is_error is true, working exactly when a
    status code in the range 200 to 399 is present, broken exactly when a
    status code outside that range is present — by the numeric range alone,
    with no special-casing of codes below 100 or above 599. -/
theorem C5_classifier_rule (t : Transport) (url : String) (o : ProbeOutcome)
    (h : check_url t url = Except.ok o) :
    ∃ b, classify o = some b ∧
      (b = Bucket.errors ↔ o.is_error = true) ∧
      (b = Bucket.working ↔ o.is_error = false ∧
        ∃ s, o.status_code = some s ∧ 200 ≤ s ∧ s < 400) ∧
      (b = Bucket.broken ↔ o.is_error = false ∧
        ∃ s, o.status_code = some s ∧ ¬(200 ≤ s ∧ s < 400)) := by
  rcases check_url_ok_inv t url o h with ⟨v, hn, ⟨r, hr, rfl⟩ | ⟨e, he, rfl⟩⟩
  · by_cases hs : 200 ≤ r.status_code ∧ r.status_code < 400
    · exact ⟨Bucket.working, by simp [classify, hs], by simp, by simp [hs], by simp [hs]⟩
    · refine ⟨Bucket.broken, by simp [classify, hs], by simp, ?_, ?_⟩
      · simp [hs]
      · simp [hs]
        omega
  · exact ⟨Bucket.errors, by simp [classify], by simp, by simp, by simp⟩

/-- C5 witness: the classifier rule at a concrete successful probe. -/
theorem C5_witness :
    ∃ b, classify (outcomeOf tOk "example.com") = some b ∧
      (b = Bucket.errors ↔ (outcomeOf tOk "example.com").is_error = true) ∧
      (b = Bucket.working ↔ (outcomeOf tOk "example.com").is_error = false ∧
        ∃ s, (outcomeOf tOk "example.com").status_code = some s ∧
          200 ≤ s ∧ s < 400) ∧
      (b = Bucket.broken ↔ (outcomeOf tOk "example.com").is_error = false ∧
        ∃ s, (outcomeOf tOk "example.com").status_code = some s ∧
          ¬(200 ≤ s ∧ s < 400)) :=
  C5_classifier_rule tOk "example.com" (outcomeOf tOk "example.com") (by rfl)

/-! Claim C10: fields of a failed probe. -/

/-- C10: every outcome the prober returns with is_error true has
    response_time 0 (the time measured before the failure is discarded) and
    carries no final_url, redirected or redirect_url field. -/
theorem C10_error_outcome_fields (t : Transport) (url : String) (o : ProbeOutcome)
    (h : check_url t url = Except.ok o) (he : o.is_error = true) :
    o.response_time = 0 ∧ o.final_url = none ∧ o.redirected = none ∧
      o.redirect_url = none := by
  rcases check_url_ok_inv t url o h with ⟨v, hn, ⟨r, hr, rfl⟩ | ⟨e, hee, rfl⟩⟩
  · simp at he
  · simp

/-- C10 witness: the failed-probe fields at a concrete failing transport. -/
theorem C10_witness :
    (outcomeOf tErr "badhost.invalid").response_time = 0 ∧
    (outcomeOf tErr "badhost.invalid").final_url = none ∧
    (outcomeOf tErr "badhost.invalid").redirected = none ∧
    (outcomeOf tErr "badhost.invalid").redirect_url = none :=
  C10_error_outcome_fields tErr "badhost.invalid"
    (outcomeOf tErr "badhost.invalid") (by rfl) (by rfl)

/-! Claim C7: the 405 fallback. -/

/-- C7: when the header-only probe returns 405 and the follow-up full
    request returns a response with status S, the final outcome records
    status_code S (not 405); and the GET fallback is issued exactly when the
    first response has status 405 — there is no further retry, the model
    holding exactly one fallback result. -/
theorem C7_fallback_on_405 (t : Transport) (url v : String) (r g : HttpResponse)
    (hn : normalize_url (pyStrip url) = Except.ok v)
    (hh : t.headResult = Except.ok r) (h405 : r.status_code = 405)
    (hg : t.getResult = Except.ok g) :
    (∃ o, check_url t url = Except.ok o ∧ o.status_code = some g.status_code) ∧
    (usesGetFallback t = true ↔
      ∃ x, t.headResult = Except.ok x ∧ x.status_code = 405) := by
  have hr : probeResponse t = Except.ok g := by
    unfold probeResponse
    rw [hh]
    simp [h405, hg]
  constructor
  · exact ⟨_, check_url_ok_success t url v g hn hr, rfl⟩
  · unfold usesGetFallback
    rw [hh]
    simp [h405]

/-- C7 witness: a HEAD response of 405 followed by a GET response of 200
    yields a final status of 200. -/
theorem C7_witness :
    (∃ o, check_url t405 "example.com" = Except.ok o ∧
      o.status_code = some 200) ∧
    (usesGetFallback t405 = true ↔
      ∃ x, t405.headResult = Except.ok x ∧ x.status_code = 405) :=
  C7_fallback_on_405 t405 "example.com" "https://example.com"
    { status_code := 405, reason := "Method Not Allowed", url := "https://example.com" }
    { status_code := 200, reason := "OK", url := "https://example.com" }
    (by rfl) (by rfl) (by rfl) (by rfl)

/-! Claim C9: the CSV report. -/

/-- C9: the CSV report is the fixed header followed by one row per outcome,
    grouped working rows first, then broken, then errors; each row lists the
    eight fields in the fixed column order, and a missing or None field
    serializes as the empty string. -/
theorem C9_csv_layout (rs : ResultSet) :
    save_csv_report rs = fieldnames :: (allOutcomes rs).map csvRow ∧
    (save_csv_report rs).length = 1 + (allOutcomes rs).length ∧
    (∀ o, (csvRow o).length = fieldnames.length) ∧
    (∀ o, csvRow o =
      [o.url, csvNat o.status_code, csvStr o.reason, csvRat o.response_time,
       csvBool o.is_error, csvStr o.error_type, csvBoolOpt o.redirected,
       csvStr o.redirect_url]) ∧
    csvNat none = "" ∧ csvStr none = "" ∧ csvBoolOpt none = "" := by
  have hmain : save_csv_report rs = fieldnames :: (allOutcomes rs).map csvRow := by
    simp [save_csv_report, allOutcomes, bucketList]
  refine ⟨hmain, ?_, fun o => rfl, fun o => rfl, rfl, rfl, rfl⟩
  rw [hmain]
  simp
  omega

/-! Claim C6: the dispatcher yields exactly one outcome per URL. -/

/-- Appending an outcome to its bucket adds exactly that outcome to the
    ResultSet's combined contents. -/
theorem addOutcome_allOutcomes (acc acc2 : ResultSet) (r : ProbeOutcome)
    (h : addOutcome acc r = Except.ok acc2) :
    (↑(allOutcomes acc2) : Multiset ProbeOutcome) = ↑(allOutcomes acc) + {r} := by
  unfold addOutcome at h
  cases hc : classify r with
  | none =>
    rw [hc] at h
    exact absurd h (by simp)
  | some b =>
    rw [hc] at h
    cases b <;> injection h with h <;> subst h <;>
      simp only [allOutcomes, ← Multiset.coe_add, ← Multiset.cons_coe,
        ← Multiset.singleton_add, Multiset.coe_nil] <;> abel

/-- The as_completed loop collects exactly the outcomes of the remaining
    jobs on top of the accumulator, whenever it returns. -/
theorem check_urls_go_spec (jobs : List (Transport × String)) :
    ∀ acc rs, check_urls_go acc jobs = Except.ok rs →
      ∃ outs, probeAll jobs = Except.ok outs ∧ outs.length = jobs.length ∧
        (↑(allOutcomes rs) : Multiset ProbeOutcome) = ↑(allOutcomes acc) + ↑outs := by
  induction jobs with
  | nil =>
    intro acc rs h
    unfold check_urls_go at h
    injection h with h
    subst h
    exact ⟨[], rfl, rfl, by simp⟩
  | cons j rest ih =>
    intro acc rs h
    unfold check_urls_go at h
    split at h
    next e heq =>
      exact absurd h (by simp)
    next r heq =>
      split at h
      next e2 heq2 =>
        exact absurd h (by simp)
      next acc2 heq2 =>
        rcases ih acc2 rs h with ⟨outs, hp, hlen, hmul⟩
        refine ⟨r :: outs, ?_, by simp [hlen], ?_⟩
        · unfold probeAll
          rw [heq, hp]
        · rw [hmul, addOutcome_allOutcomes acc acc2 r heq2]
          simp only [← Multiset.cons_coe, ← Multiset.singleton_add]
          abel

/-- The classification of an outcome the prober returned never hits the
    TypeError case: either is_error is true or a status code is present. -/
theorem classify_isSome_of_check_url (t : Transport) (url : String) (o : ProbeOutcome)
    (h : check_url t url = Except.ok o) : (classify o).isSome = true := by
  rcases check_url_ok_inv t url o h with ⟨v, hn, ⟨r, hr, rfl⟩ | ⟨e, he, rfl⟩⟩
  · by_cases hs : 200 ≤ r.status_code ∧ r.status_code < 400 <;> simp [classify, hs]
  · simp [classify]

/-- A classifiable outcome is always appended to some bucket. -/
theorem addOutcome_ok (acc : ResultSet) (r : ProbeOutcome)
    (h : (classify r).isSome = true) :
    ∃ acc2, addOutcome acc r = Except.ok acc2 := by
  unfold addOutcome
  cases hc : classify r with
  | none =>
    rw [hc] at h
    simp at h
  | some b =>
    cases b <;> exact ⟨_, rfl⟩

/-- When every remaining URL parses without a urlparse ValueError, the
    as_completed loop runs to completion. -/
theorem check_urls_go_total (jobs : List (Transport × String)) :
    ∀ acc, (∀ j ∈ jobs, ∃ v, normalize_url (pyStrip j.2) = Except.ok v) →
      ∃ rs, check_urls_go acc jobs = Except.ok rs := by
  induction jobs with
  | nil =>
    intro acc hok
    exact ⟨acc, rfl⟩
  | cons j rest ih =>
    intro acc hok
    obtain ⟨v, hv⟩ := hok j (List.mem_cons_self j rest)
    have hone : ∃ o, check_url j.1 j.2 = Except.ok o := by
      cases hr : probeResponse j.1 with
      | ok r => exact ⟨_, check_url_ok_success j.1 j.2 v r hv hr⟩
      | error e => exact ⟨_, check_url_ok_failure j.1 j.2 v e hv hr⟩
    obtain ⟨o, ho⟩ := hone
    obtain ⟨acc2, ha⟩ := addOutcome_ok acc o (classify_isSome_of_check_url j.1 j.2 o ho)
    obtain ⟨rs, hrs⟩ := ih acc2 (fun x hx => hok x (List.mem_cons_of_mem j hx))
    refine ⟨rs, ?_⟩
    unfold check_urls_go
    simp only [ho, ha]
    exact hrs

/-- C6 counterexample: an input list of K = 1 raw URL strings on which the
    dispatcher does not return a ResultSet with one outcome: for the URL
    "http://[" check_url raises (urlparse ValueError), future.result()
    re-raises it inside the as_completed loop, and the whole batch aborts
    with every outcome dropped. -/
theorem C6_dispatcher_drops_all_on_bad_url :
    check_urls [(tOk, "http://[")] = Except.error () := by
  rfl

/-- C6 (amended): for every input list of K jobs all of whose URL strings
    parse without a urlparse ValueError, and every completion order (any
    worker-pool size of at least 1 only permutes that order), the dispatcher
    returns a ResultSet whose three buckets together hold exactly K outcomes
    — exactly the K per-URL probe outcomes as a multiset, so one outcome per
    submitted URL with no duplicates and no drops, even when probes fail at
    the network level. -/
theorem C6_dispatcher_exact_when_parse_ok (jobs : List (Transport × String))
    (hok : ∀ j ∈ jobs, ∃ v, normalize_url (pyStrip j.2) = Except.ok v) :
    ∃ rs, check_urls jobs = Except.ok rs ∧
      (allOutcomes rs).length = jobs.length ∧
      ∃ outs, probeAll jobs = Except.ok outs ∧ outs.length = jobs.length ∧
        (↑(allOutcomes rs) : Multiset ProbeOutcome) = ↑outs := by
  obtain ⟨rs, hrs⟩ := check_urls_go_total jobs {} hok
  rcases check_urls_go_spec jobs {} rs hrs with ⟨outs, hp, hlen, hmul⟩
  have hz : (↑(allOutcomes ({} : ResultSet)) : Multiset ProbeOutcome) = 0 := rfl
  rw [hz, zero_add] at hmul
  refine ⟨rs, hrs, ?_, outs, hp, hlen, hmul⟩
  have hc := congrArg Multiset.card hmul
  simp only [Multiset.coe_card] at hc
  rw [hc, hlen]

/-- Jobs for the dispatcher witness: one working URL and one URL whose probe
    fails at the network level. -/
def jobsEx : List (Transport × String) :=
  [(tOk, "example.com"), (tErr, "badhost.invalid")]

/-- C6 witness: the amended statement on two concrete parse-ok jobs, one of
    which fails at the network level. -/
theorem C6_when_parse_ok_witness :
    ∃ rs, check_urls jobsEx = Except.ok rs ∧
      (allOutcomes rs).length = jobsEx.length ∧
      ∃ outs, probeAll jobsEx = Except.ok outs ∧ outs.length = jobsEx.length ∧
        (↑(allOutcomes rs) : Multiset ProbeOutcome) = ↑outs :=
  C6_dispatcher_exact_when_parse_ok jobsEx (by
    intro j hj
    simp only [jobsEx, List.mem_cons, List.not_mem_nil, or_false] at hj
    rcases hj with rfl | rfl
    · exact ⟨"https://example.com", by rfl⟩
    · exact ⟨"https://badhost.invalid", by rfl⟩)
